import Mathlib

/-!
Shallow embedding of the filter-and-aggregation engine of the Lisbon road
accidents dashboard (src/dashboard.py): feature derivation (severity,
total_victims, categorical weekday/month), filter-option domains, the
conjunctive filter, and the five aggregate views, together with theorems
settling the specification claims about them.
-/

namespace Dashboard

/-- The 7 weekday categories, in the fixed order declared in `load_data`
(`weekday_order`). -/
inductive Weekday where
  | monday | tuesday | wednesday | thursday | friday | saturday | sunday
  deriving DecidableEq, Repr

/-- The 12 month categories, in the fixed order declared in `load_data`
(`month_order`). -/
inductive Month where
  | jan | feb | mar | apr | may | jun | jul | aug | sep | oct | nov | dec
  deriving DecidableEq, Repr

/-- The label of a weekday category, as it appears in `weekday_order`. -/
def Weekday.name : Weekday → String
  | .monday => "Monday"
  | .tuesday => "Tuesday"
  | .wednesday => "Wednesday"
  | .thursday => "Thursday"
  | .friday => "Friday"
  | .saturday => "Saturday"
  | .sunday => "Sunday"

/-- The label of a month category, as it appears in `month_order`. -/
def Month.name : Month → String
  | .jan => "Jan" | .feb => "Feb" | .mar => "Mar" | .apr => "Apr"
  | .may => "May" | .jun => "Jun" | .jul => "Jul" | .aug => "Aug"
  | .sep => "Sep" | .oct => "Oct" | .nov => "Nov" | .dec => "Dec"

/-- The list `weekday_order` from `load_data`: the fixed ordered categorical
domain Monday..Sunday. -/
def weekday_order : List Weekday :=
  [.monday, .tuesday, .wednesday, .thursday, .friday, .saturday, .sunday]

/-- The list `month_order` from `load_data`: the fixed ordered categorical
domain Jan..Dec. -/
def month_order : List Month :=
  [.jan, .feb, .mar, .apr, .may, .jun, .jul, .aug, .sep, .oct, .nov, .dec]

/-- Conversion `pd.Categorical(values, categories=weekday_order)`: a raw
string equal to one of the category labels becomes that category, anything
else becomes missing (NaN). -/
def toWeekday (s : String) : Option Weekday :=
  weekday_order.find? (fun w => w.name == s)

/-- Conversion `pd.Categorical(values, categories=month_order)`: a raw string
equal to one of the category labels becomes that category, anything else
becomes missing (NaN). -/
def toMonth (s : String) : Option Month :=
  month_order.find? (fun m => m.name == s)

/-- One raw CSV row of `data/Road_Accidents_Lisbon.csv`, restricted to the
columns the engine reads. -/
structure RawRecord where
  id : Int
  day : Int
  hour : Int
  weekday : String
  month : String
  fatalities_30d : Int
  serious_injuries_30d : Int
  minor_injuries_30d : Int
  deriving DecidableEq, Repr

/-- One record after the feature engineering in `load_data`: weekday/month are
categoricals (missing when the raw value is outside the domain), and the
derived `severity` and `total_victims` columns are present. -/
structure Record where
  id : Int
  day : Int
  hour : Int
  weekday : Option Weekday
  month : Option Month
  fatalities_30d : Int
  serious_injuries_30d : Int
  minor_injuries_30d : Int
  severity : String
  total_victims : Int
  deriving DecidableEq, Repr

/-- Semantics of `np.select(conditions, choices, default)`: the choice of the
first true condition, else the default. -/
def npSelect : List (Bool × String) → String → String
  | [], default => default
  | (c, v) :: rest, default => if c then v else npSelect rest default

/-- The `severity` column of `load_data`: 'Fatal'/'Serious Injury'/'Minor
Injury' by `np.select` over the three victim-count conditions, default
'No Injury'. -/
def severityOf (f s m : Int) : String :=
  npSelect [(f > 0, "Fatal"), (s > 0, "Serious Injury"), (m > 0, "Minor Injury")]
    "No Injury"

/-- The feature engineering of `load_data` applied to one raw row. -/
def deriveRecord (r : RawRecord) : Record :=
  { id := r.id
    day := r.day
    hour := r.hour
    weekday := toWeekday r.weekday
    month := toMonth r.month
    fatalities_30d := r.fatalities_30d
    serious_injuries_30d := r.serious_injuries_30d
    minor_injuries_30d := r.minor_injuries_30d
    severity := severityOf r.fatalities_30d r.serious_injuries_30d r.minor_injuries_30d
    total_victims := r.fatalities_30d + r.serious_injuries_30d + r.minor_injuries_30d }

/-- Function `load_data` after the successful CSV read: the whole
feature-engineering pass over the row sequence. -/
def load_data (rows : List RawRecord) : List Record :=
  rows.map deriveRecord

/-- Sidebar line `severity_options = sorted(df['severity'].unique())`: the
distinct severity values actually observed in the data, sorted
lexicographically — not the fixed 4-element domain. -/
def severity_options (df : List Record) : List String :=
  ((df.map (·.severity)).dedup).insertionSort (· ≤ ·)

/-- Sidebar line `weekday_options = df['weekday'].cat.categories`: the fixed
categorical domain, independent of the data. -/
def weekday_options : List Weekday := weekday_order

/-- Sidebar line `month_options = df['month'].cat.categories`: the fixed
categorical domain, independent of the data. -/
def month_options : List Month := month_order

/-- The sidebar filter state: the multiselect selections and the inclusive
hour slider range. -/
structure Criteria where
  selected_severity : List String
  selected_weekdays : List Weekday
  selected_months : List Month
  hour_min : Int
  hour_max : Int
  deriving DecidableEq, Repr

/-- Semantics of `Series.isin(sel)` on a categorical column with possible
missing values: a missing value (NaN) belongs to no selection list. -/
def optIsin {α : Type} [BEq α] : Option α → List α → Bool
  | some a, sel => sel.contains a
  | none, _ => false

/-- The row predicate of the `df_filtered` boolean mask: severity isin the
selected severities, weekday isin the selected weekdays, month isin the
selected months, and hour within the slider range, inclusive on both ends. -/
def passes (c : Criteria) (r : Record) : Bool :=
  c.selected_severity.contains r.severity &&
  optIsin r.weekday c.selected_weekdays &&
  optIsin r.month c.selected_months &&
  (c.hour_min ≤ r.hour) &&
  (r.hour ≤ c.hour_max)

/-- The filtering step `df_filtered = df[mask]`: the rows whose mask entry is
true, in their original relative order. -/
def df_filtered (df : List Record) (c : Criteria) : List Record :=
  df.filter (passes c)

/-- KPI line `total_accidents = df_filtered.shape[0]`. -/
def total_accidents (l : List Record) : Nat := l.length

/-- KPI line `total_fatalities = df_filtered['fatalities_30d'].sum()`. -/
def total_fatalities (l : List Record) : Int := (l.map (·.fatalities_30d)).sum

/-- KPI line `total_serious_injuries = df_filtered['serious_injuries_30d'].sum()`. -/
def total_serious_injuries (l : List Record) : Int :=
  (l.map (·.serious_injuries_30d)).sum

/-- KPI line `total_minor_injuries = df_filtered['minor_injuries_30d'].sum()`. -/
def total_minor_injuries (l : List Record) : Int :=
  (l.map (·.minor_injuries_30d)).sum

/-- Chart data `hourly_data = df_filtered['hour'].value_counts().sort_index()`:
one entry per distinct hour value observed in the subset (the plain integer
column is not categorical, so `value_counts` reports observed values only),
sorted ascending by hour, each with its record count. -/
def hourly_data (l : List Record) : List (Int × Nat) :=
  (((l.map (·.hour)).dedup).insertionSort (· ≤ ·)).map
    (fun h => (h, l.countP (fun r => r.hour == h)))

/-- Chart data
`weekday_data = df_filtered['weekday'].value_counts().reindex(weekday_options)`:
`value_counts` on a categorical column reports every category (zero counts
included), and the reindex orders them by the fixed Monday..Sunday domain. -/
def weekday_data (l : List Record) : List (Weekday × Nat) :=
  weekday_options.map (fun w => (w, l.countP (fun r => r.weekday == some w)))

/-- Chart data `severity_data = df_filtered['severity'].value_counts()`: one
entry per distinct observed severity with its count, ordered by count
descending. -/
def severity_data (l : List Record) : List (String × Nat) :=
  (((l.map (·.severity)).dedup).map
      (fun s => (s, l.countP (fun r => r.severity == s)))).insertionSort
    (fun a b => b.2 ≤ a.2)

/-- The column labels of the heatmap pivot table: `pivot_table` keys its
columns by the distinct values observed in the plain integer `hour` column,
sorted ascending. -/
def heatmap_cols (l : List Record) : List Int :=
  ((l.map (·.hour)).dedup).insertionSort (· ≤ ·)

/-- Heatmap table
`df_filtered.pivot_table(index='weekday', columns='hour', values='id',
aggfunc='count').fillna(0)` reindexed by `weekday_options`: the index is the
categorical weekday column, so (with the default `observed=False` grouping)
every one of the 7 categories appears as a row; `fillna(0)` turns the empty
cells into 0 and the reindex puts rows in the fixed Monday..Sunday order.
Columns are only the distinct observed hours, ascending. -/
def heatmap_data (l : List Record) : List (Weekday × List (Int × Nat)) :=
  weekday_options.map (fun w =>
    (w, (heatmap_cols l).map (fun h =>
      (h, l.countP (fun r => r.weekday == some w && r.hour == h)))))

/-- The four KPI metrics shown for the current filter selection. -/
structure Summary where
  count : Nat
  fatalities : Int
  serious_injuries : Int
  minor_injuries : Int
  deriving DecidableEq, Repr

/-- Every aggregate view the page computes from the filtered subset. -/
structure Aggregates where
  summary : Summary
  hourly : List (Int × Nat)
  weekday : List (Weekday × Nat)
  severity : List (String × Nat)
  heatmap : List (Weekday × List (Int × Nat))
  deriving DecidableEq, Repr

/-- The script body after the filter step: when `df_filtered.empty` the page
shows a warning and calls `st.stop()` — a normal early exit, not an
exception — and no aggregate is computed; otherwise every aggregate view is
computed from the filtered subset. -/
def dashboard (df : List Record) (c : Criteria) : Option Aggregates :=
  let fd := df_filtered df c
  if fd.isEmpty then none
  else some
    { summary :=
        { count := total_accidents fd
          fatalities := total_fatalities fd
          serious_injuries := total_serious_injuries fd
          minor_injuries := total_minor_injuries fd }
      hourly := hourly_data fd
      weekday := weekday_data fd
      severity := severity_data fd
      heatmap := heatmap_data fd }

/-- A full sidebar selection: every severity label, every weekday, every
month, the default hour slider value (0, 23). -/
def fullCriteria : Criteria :=
  { selected_severity := ["Fatal", "Serious Injury", "Minor Injury", "No Injury"]
    selected_weekdays := weekday_order
    selected_months := month_order
    hour_min := 0
    hour_max := 23 }

/-- A sample raw row: a minor-injury accident on a Monday in March, hour 5. -/
def sampleRow : RawRecord := ⟨1, 6, 5, "Monday", "Mar", 0, 0, 1⟩

/-- A sample raw row with no victims: Tuesday in June, hour 10. -/
def sampleRowNoInjury : RawRecord := ⟨2, 7, 10, "Tuesday", "Jun", 0, 0, 0⟩

/-- A sample raw row whose weekday string is outside the 7-label domain. -/
def sampleRowBadWeekday : RawRecord := ⟨3, 8, 12, "Funday", "Mar", 1, 0, 0⟩

/-- The aggregate views the page computes for the single `sampleRow` under
the full selection. -/
def sampleAggregates : Aggregates :=
  { summary := { count := 1, fatalities := 0, serious_injuries := 0, minor_injuries := 1 }
    hourly := [(5, 1)]
    weekday := [(.monday, 1), (.tuesday, 0), (.wednesday, 0), (.thursday, 0),
      (.friday, 0), (.saturday, 0), (.sunday, 0)]
    severity := [("Minor Injury", 1)]
    heatmap := [(.monday, [(5, 1)]), (.tuesday, [(5, 0)]), (.wednesday, [(5, 0)]),
      (.thursday, [(5, 0)]), (.friday, [(5, 0)]), (.saturday, [(5, 0)]),
      (.sunday, [(5, 0)])] }

end Dashboard

open Dashboard

/-- Unfolding of `optIsin` into list membership: a value passes `isin` exactly
when it is present (not missing) and its category is in the selection. -/
theorem optIsin_eq_true_iff {α : Type} [DecidableEq α] (o : Option α) (sel : List α) :
    optIsin o sel = true ↔ ∃ a, o = some a ∧ a ∈ sel := by
  cases o with
  | none => simp [optIsin]
  | some a => simp [optIsin]

/-- Unfolding of the `df_filtered` row mask into the four conjunctive
predicates. -/
theorem passes_eq_true_iff (c : Criteria) (r : Record) :
    passes c r = true ↔
      r.severity ∈ c.selected_severity ∧
      (∃ w, r.weekday = some w ∧ w ∈ c.selected_weekdays) ∧
      (∃ m, r.month = some m ∧ m ∈ c.selected_months) ∧
      c.hour_min ≤ r.hour ∧ r.hour ≤ c.hour_max := by
  simp [passes, Bool.and_eq_true, optIsin_eq_true_iff, and_assoc]

/-- C1: for every record with non-negative victim counts, `severity` follows
the top-down first-match priority rule (Fatal if fatalities_30d > 0, else
Serious Injury if serious_injuries_30d > 0, else Minor Injury if
minor_injuries_30d > 0, else No Injury); in particular fatalities_30d = 1
with minor_injuries_30d = 5 classifies as Fatal. -/
theorem C1_severity_priority_rule (f s m : Int)
    (hf : 0 ≤ f) (hs : 0 ≤ s) (hm : 0 ≤ m) :
    severityOf f s m =
      (if f > 0 then "Fatal"
       else if s > 0 then "Serious Injury"
       else if m > 0 then "Minor Injury"
       else "No Injury") ∧
    severityOf 1 0 5 = "Fatal" := by
  refine ⟨?_, rfl⟩
  simp [severityOf, npSelect]

theorem C1_severity_priority_rule_witness :
    severityOf 1 0 5 = "Fatal" ∧ severityOf 0 2 3 = "Serious Injury" :=
  ⟨((C1_severity_priority_rule 1 0 5 (by decide) (by decide) (by decide)).1).trans
      (by decide),
   ((C1_severity_priority_rule 0 2 3 (by decide) (by decide) (by decide)).1).trans
      (by decide)⟩

/-- C9: for every record with non-negative victim counts, the derived fields
are consistent: total_victims = 0 iff severity = 'No Injury'. -/
theorem C9_total_victims_iff_no_injury (r : RawRecord)
    (hf : 0 ≤ r.fatalities_30d) (hs : 0 ≤ r.serious_injuries_30d)
    (hm : 0 ≤ r.minor_injuries_30d) :
    (deriveRecord r).total_victims = 0 ↔ (deriveRecord r).severity = "No Injury" := by
  simp only [deriveRecord, severityOf, npSelect]
  constructor
  · intro h
    have hf0 : r.fatalities_30d = 0 := by omega
    have hs0 : r.serious_injuries_30d = 0 := by omega
    have hm0 : r.minor_injuries_30d = 0 := by omega
    simp [hf0, hs0, hm0]
  · intro h
    by_contra hne
    have hpos : 0 < r.fatalities_30d ∨ 0 < r.serious_injuries_30d ∨
        0 < r.minor_injuries_30d := by omega
    rcases hpos with hp | hp | hp
    · simp [hp] at h
    · rcases lt_or_le 0 r.fatalities_30d with hq | hq
      · simp [hq] at h
      · simp [show ¬ r.fatalities_30d > 0 by omega, hp] at h
    · rcases lt_or_le 0 r.fatalities_30d with hq | hq
      · simp [hq] at h
      · rcases lt_or_le 0 r.serious_injuries_30d with hq2 | hq2
        · simp [show ¬ r.fatalities_30d > 0 by omega, hq2] at h
        · simp [show ¬ r.fatalities_30d > 0 by omega,
            show ¬ r.serious_injuries_30d > 0 by omega, hp] at h

theorem C9_total_victims_iff_no_injury_witness :
    (deriveRecord ⟨1, 5, 10, "Monday", "Mar", 0, 0, 0⟩).total_victims = 0 ∧
    (deriveRecord ⟨1, 5, 10, "Monday", "Mar", 0, 0, 0⟩).severity = "No Injury" :=
  ⟨by decide,
   (C9_total_victims_iff_no_injury ⟨1, 5, 10, "Monday", "Mar", 0, 0, 0⟩
      (by decide) (by decide) (by decide)).mp (by decide)⟩

/-- C2: for every derived record set and criteria, a record is in the
filtered result iff it is in the input and its severity, weekday, month and
hour each satisfy their predicate (all four conjunctive, hour range inclusive
on both ends), and the result keeps the original relative order (it is a
sublist of the input). -/
theorem C2_filter_conjunctive (df : List Record) (c : Criteria) :
    (∀ r : Record,
      r ∈ df_filtered df c ↔
        r ∈ df ∧
        r.severity ∈ c.selected_severity ∧
        (∃ w, r.weekday = some w ∧ w ∈ c.selected_weekdays) ∧
        (∃ m, r.month = some m ∧ m ∈ c.selected_months) ∧
        c.hour_min ≤ r.hour ∧ r.hour ≤ c.hour_max) ∧
    (df_filtered df c).Sublist df := by
  refine ⟨fun r => ?_, List.filter_sublist df⟩
  rw [df_filtered, List.mem_filter, passes_eq_true_iff]

/-- C10: a raw record whose weekday (or month) string is outside the fixed
7-element (or 12-element) label domain gets a missing categorical value from
the feature derivation, and the derived record can never appear in any
filtered result, whatever the criteria select. -/
theorem C10_out_of_domain_never_filtered (rr : RawRecord)
    (h : rr.weekday ∉ weekday_order.map Weekday.name ∨
         rr.month ∉ month_order.map Month.name) :
    ((deriveRecord rr).weekday = none ∨ (deriveRecord rr).month = none) ∧
    ∀ (df : List Record) (c : Criteria), deriveRecord rr ∉ df_filtered df c := by
  have hmiss : (deriveRecord rr).weekday = none ∨ (deriveRecord rr).month = none := by
    rcases h with h | h
    · left
      simp only [deriveRecord, toWeekday, List.find?_eq_none, beq_iff_eq]
      intro w hw he
      exact h (List.mem_map.mpr ⟨w, hw, he⟩)
    · right
      simp only [deriveRecord, toMonth, List.find?_eq_none, beq_iff_eq]
      intro m hm he
      exact h (List.mem_map.mpr ⟨m, hm, he⟩)
  refine ⟨hmiss, fun df c hmem => ?_⟩
  have hp := (List.mem_filter.mp hmem).2
  rw [passes_eq_true_iff] at hp
  rcases hmiss with hx | hx
  · obtain ⟨w, hw, -⟩ := hp.2.1
    rw [hx] at hw
    exact Option.noConfusion hw
  · obtain ⟨m, hm, -⟩ := hp.2.2.1
    rw [hx] at hm
    exact Option.noConfusion hm

theorem C10_out_of_domain_never_filtered_witness :
    deriveRecord sampleRowBadWeekday ∉
      df_filtered (load_data [sampleRowBadWeekday]) fullCriteria :=
  (C10_out_of_domain_never_filtered sampleRowBadWeekday
      (Or.inl (by decide))).2 (load_data [sampleRowBadWeekday]) fullCriteria

/-- C4 counterexample: on a dataset holding a single no-injury record, the
severity selector's option list does not contain the label 'Fatal', so it
does not offer all 4 severity labels as the claim states. -/
theorem C4_counterexample_severity_options :
    "Fatal" ∉ severity_options (load_data [sampleRowNoInjury]) := by
  decide

/-- C4 amended: the weekday selector offers the full fixed 7-day domain in
Monday..Sunday order and the month selector the full fixed 12-month domain in
Jan..Dec order, independent of the data; the severity selector, however,
offers exactly the severity values observed in the data, sorted
lexicographically — not the fixed 4-label domain. -/
theorem C4_selector_domains (df : List Record) :
    weekday_options = weekday_order ∧
    month_options = month_order ∧
    (∀ s : String, s ∈ severity_options df ↔ ∃ r ∈ df, r.severity = s) ∧
    List.Sorted (· ≤ ·) (severity_options df) := by
  refine ⟨rfl, rfl, fun s => ?_, List.sorted_insertionSort _ _⟩
  rw [severity_options, List.mem_insertionSort, List.mem_dedup, List.mem_map]

/-- C3 counterexample: on the filtered subset holding a single record with
hour 5, the hourly distribution has no entry for hour 0 at all — it is
sparse, not the dense 24-bucket aggregate the claim states. -/
theorem C3_counterexample_sparse_hourly :
    (0 : Int) ∉ (hourly_data (df_filtered (load_data [sampleRow]) fullCriteria)).map
      Prod.fst := by
  decide

/-- C3 amended: the hourly distribution contains exactly one entry per hour
value actually observed in the subset (hours with zero matching records are
absent, so every present count is positive), ordered ascending by hour, and
each entry counts the subset records with that hour. -/
theorem C3_hourly_observed_ascending (l : List Record) :
    List.Sorted (· ≤ ·) ((hourly_data l).map Prod.fst) ∧
    ((hourly_data l).map Prod.fst).Nodup ∧
    (∀ h : Int, h ∈ (hourly_data l).map Prod.fst ↔ h ∈ l.map (·.hour)) ∧
    (∀ p ∈ hourly_data l, p.2 = l.countP (fun r => r.hour == p.1) ∧ 0 < p.2) := by
  have hfst : (hourly_data l).map Prod.fst
      = ((l.map (·.hour)).dedup).insertionSort (· ≤ ·) := by
    simp [hourly_data, List.map_map, Function.comp_def]
  refine ⟨?_, ?_, fun h => ?_, fun p hp => ?_⟩
  · rw [hfst]
    exact List.sorted_insertionSort _ _
  · rw [hfst]
    exact ((List.perm_insertionSort _ _).nodup_iff).mpr (List.nodup_dedup _)
  · rw [hfst, List.mem_insertionSort, List.mem_dedup]
  · obtain ⟨h0, hh0, hph⟩ := List.mem_map.mp hp
    cases hph
    refine ⟨rfl, ?_⟩
    rw [List.mem_insertionSort, List.mem_dedup, List.mem_map] at hh0
    obtain ⟨r, hr, hrh⟩ := hh0
    exact List.countP_pos_iff.mpr ⟨r, hr, by simp [hrh]⟩

/-- C5 counterexample: on the filtered subset holding a single record with
hour 5, every row of the weekday-by-hour pivot has a single column, labelled
5 — the matrix does not have the 24 hour columns 0-23 the claim states, and
the cell (Monday, 0) is absent rather than 0. -/
theorem C5_counterexample_sparse_heatmap_columns :
    ((heatmap_data (df_filtered (load_data [sampleRow]) fullCriteria)).map
        (fun row => row.2.map Prod.fst))
      = [[5], [5], [5], [5], [5], [5], [5]] := by
  decide

/-- C5 amended: the weekday-by-hour cross-tabulation has exactly the 7
weekdays as rows, in the fixed Monday..Sunday order (all present even when
all-zero); its columns are the distinct hour values observed in the subset,
ascending (not all 24 hours); and each present cell (w, h) holds the number
of subset records with weekday w and hour h, 0 included. -/
theorem C5_heatmap_matrix (l : List Record) :
    (heatmap_data l).map Prod.fst = weekday_order ∧
    (∀ row ∈ heatmap_data l, row.2.map Prod.fst = heatmap_cols l) ∧
    List.Sorted (· ≤ ·) (heatmap_cols l) ∧
    (heatmap_cols l).Nodup ∧
    (∀ h : Int, h ∈ heatmap_cols l ↔ h ∈ l.map (·.hour)) ∧
    (∀ row ∈ heatmap_data l, ∀ p ∈ row.2,
      p.2 = l.countP (fun r => r.weekday == some row.1 && r.hour == p.1)) := by
  refine ⟨?_, fun row hrow => ?_, List.sorted_insertionSort _ _,
    ((List.perm_insertionSort _ _).nodup_iff).mpr (List.nodup_dedup _),
    fun h => ?_, fun row hrow p hp => ?_⟩
  · simp [heatmap_data, List.map_map, Function.comp_def, weekday_options]
  · obtain ⟨w, hw, he⟩ := List.mem_map.mp hrow
    cases he
    simp [List.map_map, Function.comp_def]
  · rw [heatmap_cols, List.mem_insertionSort, List.mem_dedup]
  · obtain ⟨w, hw, he⟩ := List.mem_map.mp hrow
    cases he
    obtain ⟨h0, hh0, hph⟩ := List.mem_map.mp hp
    cases hph
    rfl

/-- C6: whenever the dashboard computes aggregates (the filtered subset is
non-empty), the KPI summary is the record count of the filtered subset
together with the sums of the three victim-count columns over the filtered
subset only. -/
theorem C6_summary_kpis (df : List Record) (c : Criteria) (agg : Aggregates)
    (h : dashboard df c = some agg) :
    agg.summary.count = (df_filtered df c).length ∧
    agg.summary.fatalities = ((df_filtered df c).map (·.fatalities_30d)).sum ∧
    agg.summary.serious_injuries
      = ((df_filtered df c).map (·.serious_injuries_30d)).sum ∧
    agg.summary.minor_injuries
      = ((df_filtered df c).map (·.minor_injuries_30d)).sum := by
  simp only [dashboard] at h
  split at h
  · exact absurd h (by simp)
  · cases Option.some.inj h
    exact ⟨rfl, rfl, rfl, rfl⟩

theorem C6_summary_kpis_witness :
    sampleAggregates.summary.count
        = (df_filtered (load_data [sampleRow]) fullCriteria).length ∧
    sampleAggregates.summary.fatalities
        = ((df_filtered (load_data [sampleRow]) fullCriteria).map
            (·.fatalities_30d)).sum ∧
    sampleAggregates.summary.serious_injuries
        = ((df_filtered (load_data [sampleRow]) fullCriteria).map
            (·.serious_injuries_30d)).sum ∧
    sampleAggregates.summary.minor_injuries
        = ((df_filtered (load_data [sampleRow]) fullCriteria).map
            (·.minor_injuries_30d)).sum :=
  C6_summary_kpis (load_data [sampleRow]) fullCriteria sampleAggregates (by decide)

/-- C7: an empty filtered subset is signalled by the dashboard as an explicit
empty outcome (a normal value, not an exception) in which no aggregate view
is computed; when the subset is non-empty, all aggregate views are computed
from it. -/
theorem C7_empty_result (df : List Record) (c : Criteria) :
    (dashboard df c = none ↔ df_filtered df c = []) ∧
    (df_filtered df c ≠ [] →
      dashboard df c = some
        { summary :=
            { count := total_accidents (df_filtered df c)
              fatalities := total_fatalities (df_filtered df c)
              serious_injuries := total_serious_injuries (df_filtered df c)
              minor_injuries := total_minor_injuries (df_filtered df c) }
          hourly := hourly_data (df_filtered df c)
          weekday := weekday_data (df_filtered df c)
          severity := severity_data (df_filtered df c)
          heatmap := heatmap_data (df_filtered df c) }) := by
  by_cases he : df_filtered df c = []
  · exact ⟨by simp [dashboard, he], fun hne => absurd he hne⟩
  · have hb : (df_filtered df c).isEmpty = false := by
      simpa [List.isEmpty_iff] using he
    exact ⟨by simp [dashboard, hb, he], fun _ => by simp [dashboard, hb]⟩

theorem C7_empty_result_witness :
    dashboard (load_data [sampleRow]) (Criteria.mk [] [] [] 0 23) = none ∧
    dashboard (load_data [sampleRow]) fullCriteria = some sampleAggregates := by
  constructor
  · exact (C7_empty_result (load_data [sampleRow]) (Criteria.mk [] [] [] 0 23)).1.mpr
      (by decide)
  · have h := (C7_empty_result (load_data [sampleRow]) fullCriteria).2 (by decide)
    rw [h]
    decide

/-- Summing an indicator of a fixed element over a duplicate-free list that
contains it gives exactly 1. -/
theorem sum_map_ite_indicator {β : Type} [BEq β] [LawfulBEq β] (x : β) :
    ∀ ks : List β, ks.Nodup → x ∈ ks →
      (ks.map (fun k => if x == k then (1 : Nat) else 0)).sum = 1 := by
  intro ks
  induction ks with
  | nil => intro _ h; cases h
  | cons k t ih =>
    intro hnd hx
    rcases List.mem_cons.mp hx with rfl | hx'
    · simp only [List.map_cons, List.sum_cons, beq_self_eq_true, if_pos]
      have hz : (t.map fun k2 => if x == k2 then (1 : Nat) else 0).sum = 0 := by
        refine List.sum_eq_zero ?_
        intro y hy
        obtain ⟨k2, hk2, rfl⟩ := List.mem_map.mp hy
        have hne : x ≠ k2 := by
          intro he
          exact (List.nodup_cons.mp hnd).1 (he ▸ hk2)
        simp [hne]
      rw [hz]
    · have hne : x ≠ k := by
        intro he
        exact (List.nodup_cons.mp hnd).1 (he ▸ hx')
      have hb : (x == k) = false := by simp [hne]
      simp only [List.map_cons, List.sum_cons, hb, if_neg, Bool.false_eq_true,
        not_false_iff, Nat.zero_add]
      exact ih (List.nodup_cons.mp hnd).2 hx'

/-- Summing, over a duplicate-free key list that covers every mapped element,
the number of elements mapping to each key gives the list's length. -/
theorem sum_countP_keys {α β : Type} [BEq β] [LawfulBEq β] (l : List α) (f : α → β)
    (ks : List β) (hnd : ks.Nodup) (hall : ∀ a ∈ l, f a ∈ ks) :
    (ks.map (fun k => l.countP (fun a => f a == k))).sum = l.length := by
  induction l with
  | nil => simp
  | cons a t ih =>
    have hat : ∀ x ∈ t, f x ∈ ks := fun x hx => hall x (List.mem_cons_of_mem a hx)
    have ha : f a ∈ ks := hall a (List.mem_cons_self a t)
    simp only [List.countP_cons]
    rw [List.sum_map_add]
    have h1 : (ks.map fun k => if f a == k then (1 : Nat) else 0).sum = 1 :=
      sum_map_ite_indicator (f a) ks hnd ha
    have h2 : (ks.map fun k => t.countP (fun x => f x == k)).sum = t.length := ih hat
    rw [h2, h1, List.length_cons]

/-- Every weekday category is in the fixed domain list. -/
theorem weekday_mem_order (w : Weekday) : w ∈ weekday_order := by
  cases w <;> decide

/-- Every record that survives the filter carries a present (non-missing)
weekday category. -/
theorem df_filtered_weekday_some (df : List Record) (c : Criteria) :
    ∀ r ∈ df_filtered df c, ∃ w, r.weekday = some w := by
  intro r hr
  have hp := (List.mem_filter.mp hr).2
  rw [passes_eq_true_iff] at hp
  obtain ⟨-, ⟨w, hw, -⟩, -⟩ := hp
  exact ⟨w, hw⟩

/-- The hourly distribution's counts always sum to the subset's size. -/
theorem hourly_data_sum (l : List Record) :
    ((hourly_data l).map Prod.snd).sum = l.length := by
  have hmap : (hourly_data l).map Prod.snd
      = (((l.map (·.hour)).dedup).insertionSort (· ≤ ·)).map
          (fun h => l.countP (fun r => r.hour == h)) := by
    simp [hourly_data, List.map_map, Function.comp_def]
  rw [hmap]
  refine sum_countP_keys l (·.hour) _ ?_ ?_
  · exact ((List.perm_insertionSort _ _).nodup_iff).mpr (List.nodup_dedup _)
  · intro a ha
    rw [List.mem_insertionSort, List.mem_dedup]
    exact List.mem_map_of_mem _ ha

/-- Counting records per weekday category over the whole fixed domain
recovers the subset's size, when every record carries a present weekday. -/
theorem sum_weekday_countP (l : List Record)
    (hw : ∀ r ∈ l, ∃ w, r.weekday = some w) :
    (weekday_order.map (fun w => l.countP (fun r => r.weekday == some w))).sum
      = l.length := by
  have hmap : weekday_order.map (fun w => l.countP (fun r => r.weekday == some w))
      = (weekday_order.map some).map (fun k => l.countP (fun r => r.weekday == k)) := by
    simp [List.map_map, Function.comp_def]
  rw [hmap]
  refine sum_countP_keys l (·.weekday) _ ?_ ?_
  · exact List.Nodup.map (Option.some_injective _) (by decide)
  · intro r hr
    obtain ⟨w, hww⟩ := hw r hr
    simp only [hww]
    exact List.mem_map_of_mem _ (weekday_mem_order w)

/-- The weekday distribution's counts always sum to the subset's size, when
every record carries a present weekday. -/
theorem weekday_data_sum (l : List Record)
    (hw : ∀ r ∈ l, ∃ w, r.weekday = some w) :
    ((weekday_data l).map Prod.snd).sum = l.length := by
  have hmap : (weekday_data l).map Prod.snd
      = weekday_order.map (fun w => l.countP (fun r => r.weekday == some w)) := by
    simp [weekday_data, weekday_options, List.map_map, Function.comp_def]
  rw [hmap]
  exact sum_weekday_countP l hw

/-- The grand total of the weekday-by-hour cross-tabulation is the subset's
size, when every record carries a present weekday. -/
theorem heatmap_data_sum (l : List Record)
    (hw : ∀ r ∈ l, ∃ w, r.weekday = some w) :
    ((heatmap_data l).map (fun row => (row.2.map Prod.snd).sum)).sum = l.length := by
  have hrow : ∀ w : Weekday,
      (((heatmap_cols l).map
          (fun h => l.countP (fun r => r.weekday == some w && r.hour == h))).sum)
        = l.countP (fun r => r.weekday == some w) := by
    intro w
    have hcell : ∀ h : Int,
        l.countP (fun r => r.weekday == some w && r.hour == h)
          = (l.filter (fun r => r.weekday == some w)).countP (fun r => r.hour == h) := by
      intro h
      rw [List.countP_filter]
      refine List.countP_congr ?_
      intro r hr
      simp [Bool.and_comm]
    have hcols : (heatmap_cols l).map
          (fun h => l.countP (fun r => r.weekday == some w && r.hour == h))
        = (heatmap_cols l).map
          (fun h => (l.filter (fun r => r.weekday == some w)).countP
            (fun r => r.hour == h)) := by
      exact List.map_congr_left fun h _ => hcell h
    rw [hcols]
    have hsum : ((heatmap_cols l).map
          (fun h => (l.filter (fun r => r.weekday == some w)).countP
            (fun r => r.hour == h))).sum
        = (l.filter (fun r => r.weekday == some w)).length := by
      refine sum_countP_keys (l.filter (fun r => r.weekday == some w)) (·.hour) _ ?_ ?_
      · exact ((List.perm_insertionSort _ _).nodup_iff).mpr (List.nodup_dedup _)
      · intro a ha
        rw [heatmap_cols, List.mem_insertionSort, List.mem_dedup]
        exact List.mem_map_of_mem _ (List.mem_of_mem_filter ha)
    rw [hsum, ← List.countP_eq_length_filter]
  have hflat : (heatmap_data l).map (fun row => (row.2.map Prod.snd).sum)
      = weekday_order.map (fun w => l.countP (fun r => r.weekday == some w)) := by
    rw [heatmap_data, weekday_options, List.map_map]
    refine List.map_congr_left fun w _ => ?_
    simpa [Function.comp_def, List.map_map] using hrow w
  rw [hflat]
  exact sum_weekday_countP l hw

/-- C8: for every non-empty filtered subset, the hourly distribution's
counts, the weekday distribution's counts and the grand total over all cells
of the weekday-by-hour cross-tabulation each sum to the subset's record
count. -/
theorem C8_distributions_sum_to_total (df : List Record) (c : Criteria)
    (hne : df_filtered df c ≠ []) :
    ((hourly_data (df_filtered df c)).map Prod.snd).sum
        = (df_filtered df c).length ∧
    ((weekday_data (df_filtered df c)).map Prod.snd).sum
        = (df_filtered df c).length ∧
    ((heatmap_data (df_filtered df c)).map
        (fun row => (row.2.map Prod.snd).sum)).sum
      = (df_filtered df c).length :=
  ⟨hourly_data_sum _,
   weekday_data_sum _ (df_filtered_weekday_some df c),
   heatmap_data_sum _ (df_filtered_weekday_some df c)⟩

theorem C8_distributions_sum_to_total_witness :
    ((hourly_data (df_filtered (load_data [sampleRow]) fullCriteria)).map
        Prod.snd).sum
      = (df_filtered (load_data [sampleRow]) fullCriteria).length ∧
    ((weekday_data (df_filtered (load_data [sampleRow]) fullCriteria)).map
        Prod.snd).sum
      = (df_filtered (load_data [sampleRow]) fullCriteria).length ∧
    ((heatmap_data (df_filtered (load_data [sampleRow]) fullCriteria)).map
        (fun row => (row.2.map Prod.snd).sum)).sum
      = (df_filtered (load_data [sampleRow]) fullCriteria).length :=
  C8_distributions_sum_to_total (load_data [sampleRow]) fullCriteria (by decide)
